import Mathlib

/-!
Verification of the diplomat FFI artifacts: the tagged result record
`diplomat_result_double_void` declared in the C/C++ headers, and the
generated C# binding declarations for the `Utf16Wrap` opaque type.
-/

/-! ## Declaration-level embedding of the C headers

The two headers each declare

    typedef struct diplomat_result_double_void {
        union { double ok; };
        bool is_ok;
    } diplomat_result_double_void;

We embed the declaration itself as a list of struct members, so that
field order, union membership and sizes can be stated.
-/

/-- Scalar C types appearing in the headers. -/
inductive CScalar where
  | double : CScalar
  | cbool : CScalar
  deriving DecidableEq, Repr

/-- A member of a C struct: either a named scalar field or an anonymous
union of named scalar members. -/
inductive CMember where
  | scalar (name : String) (ty : CScalar) : CMember
  | anonUnion (members : List (String × CScalar)) : CMember
  deriving DecidableEq, Repr

/-- Size in bytes of a scalar C type (standard 64-bit host sizes:
a double is 8 bytes, a C bool is 1 byte). -/
def sizeofScalar : CScalar → Nat
  | CScalar.double => 8
  | CScalar.cbool => 1

/-- Size in bytes of a struct member; an anonymous union is as large as
its largest member (0 when it has no member, so a member of type void,
which cannot appear in a union, contributes no storage). -/
def sizeofMember : CMember → Nat
  | CMember.scalar _ ty => sizeofScalar ty
  | CMember.anonUnion ms => ms.foldr (fun m acc => max (sizeofScalar m.2) acc) 0

/-- The struct declaration of `diplomat_result_double_void` in
src/feature_tests/cpp/include/diplomat_result_double_void.h, lines 13-18:
an anonymous union with a single double member `ok`, then a bool `is_ok`. -/
def diplomat_result_double_void_decl_cpp : List CMember :=
  [CMember.anonUnion [("ok", CScalar.double)],
   CMember.scalar "is_ok" CScalar.cbool]

/-- The struct declaration of `diplomat_result_double_void` in
src/unnamed/part_000 (include guard `diplomat_result_double_void_D_H`),
lines 16-21: an anonymous union with a single double member `ok`, then a
bool `is_ok`. -/
def diplomat_result_double_void_decl_d : List CMember :=
  [CMember.anonUnion [("ok", CScalar.double)],
   CMember.scalar "is_ok" CScalar.cbool]

/-! ## Value-level embedding of the tagged result record

A double value is identified with its 64-bit pattern, so payload equality
below is bit-for-bit equality.
-/

/-- The value content of a `diplomat_result_double_void` record: the single
union member `ok` (the 64-bit pattern in the payload slot) and the
discriminant `is_ok`. -/
structure diplomat_result_double_void where
  ok : Nat
  is_ok : Bool
  deriving DecidableEq, Repr

/-- The outcome of the fallible operation: success carrying a double
(as its 64-bit pattern), or failure with no payload. -/
inductive Outcome where
  | success (v : Nat) : Outcome
  | failure : Outcome
  deriving DecidableEq, Repr

/-- Modelled from the spec: the encoder `Encode(outcome)` of section 4.1 is
not among the provided sources (only the record declaration is). On success
with value `v` it sets `is_ok = true` and writes `v` into the payload slot;
on failure it sets `is_ok = false` and leaves the payload slot unspecified,
which we model by the explicit `junk` argument. -/
def Encode (outcome : Outcome) (junk : Nat) : diplomat_result_double_void :=
  match outcome with
  | Outcome.success v => { ok := v, is_ok := true }
  | Outcome.failure => { ok := junk, is_ok := false }

/-- Modelled from the spec: the decoder `Decode(record)` of section 4.1 is
not among the provided sources. If `is_ok` is true it yields success with
the payload slot reinterpreted as the success type; otherwise it yields
failure with no payload, without reading the payload slot. -/
def Decode (r : diplomat_result_double_void) : Outcome :=
  if r.is_ok then Outcome.success r.ok else Outcome.failure

/-! ## Embedding of the generated C# binding declarations

src/feature_tests/dotnet/Lib/Generated/RawUtf16Wrap.cs declares three
DllImport entry points on the struct `Utf16Wrap`.
-/

/-- Calling conventions available to a DllImport declaration. -/
inductive CallingConvention where
  | cdecl : CallingConvention
  | stdcall : CallingConvention
  | thiscall : CallingConvention
  | winapi : CallingConvention
  deriving DecidableEq, Repr

/-- The C# types appearing in the binding signatures. -/
inductive CSType where
  | voidTy : CSType
  | ushortArray : CSType
  | ptrUtf16Wrap : CSType
  deriving DecidableEq, Repr

/-- One DllImport binding: the C# method name, the native entry-point
symbol, the calling convention, and the signature. -/
structure DllImportBinding where
  methodName : String
  entryPoint : String
  callconv : CallingConvention
  paramTypes : List CSType
  returnType : CSType
  deriving DecidableEq, Repr

/-- RawUtf16Wrap.cs lines 19-20:
`[DllImport(..., CallingConvention.Cdecl, EntryPoint = "Utf16Wrap_borrow_cont", ...)]
 public static unsafe ushort[] BorrowCont(Utf16Wrap* self);` -/
def borrowContBinding : DllImportBinding :=
  { methodName := "BorrowCont"
    entryPoint := "Utf16Wrap_borrow_cont"
    callconv := CallingConvention.cdecl
    paramTypes := [CSType.ptrUtf16Wrap]
    returnType := CSType.ushortArray }

/-- RawUtf16Wrap.cs lines 22-23:
`[DllImport(..., CallingConvention.Cdecl, EntryPoint = "Utf16Wrap_owned", ...)]
 public static unsafe ushort[] Owned(Utf16Wrap* self);` -/
def ownedBinding : DllImportBinding :=
  { methodName := "Owned"
    entryPoint := "Utf16Wrap_owned"
    callconv := CallingConvention.cdecl
    paramTypes := [CSType.ptrUtf16Wrap]
    returnType := CSType.ushortArray }

/-- RawUtf16Wrap.cs lines 25-26:
`[DllImport(..., CallingConvention.Cdecl, EntryPoint = "Utf16Wrap_destroy", ...)]
 public static unsafe void Destroy(Utf16Wrap* self);` -/
def destroyBinding : DllImportBinding :=
  { methodName := "Destroy"
    entryPoint := "Utf16Wrap_destroy"
    callconv := CallingConvention.cdecl
    paramTypes := [CSType.ptrUtf16Wrap]
    returnType := CSType.voidTy }

/-- The three bindings declared on the `Utf16Wrap` struct, in declaration
order. -/
def Utf16WrapBindings : List DllImportBinding :=
  [borrowContBinding, ownedBinding, destroyBinding]

/-! ## Handle semantics for the `Utf16Wrap` opaque type

Only the binding declarations are in the sources; the native object
behind the handle is modelled from the spec (sections 3 and 4.2).
-/

/-- Modelled from the spec: the opaque native object handle `selfRef` of
section 3 is not among the provided sources. It is either live, owning a
contiguous sequence of 16-bit code units, or destroyed. -/
inductive HandleState where
  | live (content : List Nat) : HandleState
  | destroyed : HandleState
  deriving DecidableEq, Repr

/-- Modelled from the spec: `BorrowContiguous(selfRef)` of section 4.2 is
not among the provided sources. On a live handle it returns a view over
the contiguous run of 16-bit units owned by the handle, leaving the handle
unchanged; on a destroyed handle it is a precondition violation (`none`). -/
def BorrowContiguous : HandleState → Option (List Nat × HandleState)
  | HandleState.live content => some (content, HandleState.live content)
  | HandleState.destroyed => none

/-- Modelled from the spec: `TakeOwned(selfRef)` of section 4.2 is not
among the provided sources. On a live handle it returns a newly allocated
sequence whose storage is transferred to the caller, leaving the handle
live; on a destroyed handle it is a precondition violation (`none`). -/
def TakeOwned : HandleState → Option (List Nat × HandleState)
  | HandleState.live content => some (content, HandleState.live content)
  | HandleState.destroyed => none

/-- Modelled from the spec: `Destroy(selfRef)` of section 4.2 is not among
the provided sources. It releases the native object of a live handle,
moving it to the destroyed state; destroying an already destroyed handle
is a precondition violation (`none`). -/
def Destroy : HandleState → Option HandleState
  | HandleState.live _ => some HandleState.destroyed
  | HandleState.destroyed => none

/-- A world for the frame-effect claim: the handle together with the owned
sequences previously obtained from it via `TakeOwned`, each paired with a
flag recording whether it has already been released. -/
structure World where
  handle : HandleState
  ownedSeqs : List (List Nat × Bool)
  deriving DecidableEq, Repr

/-- Modelled from the spec: destroying the handle inside a world releases
the native object only; the owned sequences, already transferred to the
caller, are untouched. -/
def destroyWorld (w : World) : Option World :=
  (Destroy w.handle).map (fun h2 => { handle := h2, ownedSeqs := w.ownedSeqs })

/-- A borrowed view previously obtained from the handle is valid exactly
while the source handle is live. -/
def borrowedViewValid (w : World) : Bool :=
  match w.handle with
  | HandleState.live _ => true
  | HandleState.destroyed => false

/-- Modelled from the spec: releasing the owned sequence at index `i` is
legal exactly once; releasing an already released sequence, or a missing
index, is an error (`none`). -/
def releaseOwned (w : World) (i : Nat) : Option World :=
  match w.ownedSeqs.get? i with
  | some (content, false) =>
      some { w with ownedSeqs := w.ownedSeqs.set i (content, true) }
  | _ => none

/-! ## Theorems for the claims -/

/-- Claim C1: for every double value (64-bit pattern) `v`, decoding the
encoding of `Success(v)` yields a record whose `is_ok` discriminant is
true and whose payload slot equals `v` bit-for-bit, so the round trip
returns `Success(v)`. -/
theorem C1_decode_encode_success (v junk : Nat) :
    (Encode (Outcome.success v) junk).is_ok = true ∧
    (Encode (Outcome.success v) junk).ok = v ∧
    Decode (Encode (Outcome.success v) junk) = Outcome.success v := by
  refine ⟨rfl, rfl, ?_⟩
  simp [Encode, Decode]

/-- Claim C2: decoding the encoding of `Failure` yields a record whose
`is_ok` discriminant is false and the result is failure with no payload;
the decoder never reads the payload slot, so the decoded outcome is the
same for every bit pattern `p` placed in the payload slot. -/
theorem C2_decode_encode_failure (junk p : Nat) :
    (Encode Outcome.failure junk).is_ok = false ∧
    Decode (Encode Outcome.failure junk) = Outcome.failure ∧
    Decode { Encode Outcome.failure junk with ok := p } = Outcome.failure := by
  refine ⟨rfl, ?_, ?_⟩ <;> simp [Encode, Decode]

/-- Claim C3: the `diplomat_result_double_void` struct declaration has
exactly two members in this order: first an anonymous union payload slot
whose size is the maximum of the success-payload size (a double, 8 bytes)
and the failure-payload size (void, contributing no storage, 0 bytes),
then a boolean discriminant named `is_ok` of at least one byte. -/
theorem C3_tagged_result_layout :
    diplomat_result_double_void_decl_cpp.length = 2 ∧
    diplomat_result_double_void_decl_cpp.get? 0 =
      some (CMember.anonUnion [("ok", CScalar.double)]) ∧
    sizeofMember (CMember.anonUnion [("ok", CScalar.double)]) =
      max (sizeofScalar CScalar.double) 0 ∧
    diplomat_result_double_void_decl_cpp.get? 1 =
      some (CMember.scalar "is_ok" CScalar.cbool) ∧
    1 ≤ sizeofScalar CScalar.cbool := by
  refine ⟨rfl, rfl, ?_, rfl, ?_⟩ <;> decide

/-- Claim C4: every exported operation of `Utf16Wrap` is bound to a native
symbol named `<TypeName>_<operationName>` (BorrowContiguous to
`Utf16Wrap_borrow_cont`, TakeOwned to `Utf16Wrap_owned`, Destroy to
`Utf16Wrap_destroy`), and every binding uses the C (cdecl) calling
convention. -/
theorem C4_entry_points_and_callconv :
    borrowContBinding.entryPoint = "Utf16Wrap" ++ "_" ++ "borrow_cont" ∧
    ownedBinding.entryPoint = "Utf16Wrap" ++ "_" ++ "owned" ∧
    destroyBinding.entryPoint = "Utf16Wrap" ++ "_" ++ "destroy" ∧
    Utf16WrapBindings.map (fun b => b.callconv) =
      [CallingConvention.cdecl, CallingConvention.cdecl,
       CallingConvention.cdecl] := by
  refine ⟨?_, ?_, ?_, rfl⟩ <;> rfl

/-- Claim C5: on a live handle that is not modified in between, two
successive calls to `BorrowContiguous` both succeed, do not change the
handle, and return views with identical content and identical length. -/
theorem C5_borrow_deterministic (c : List Nat) :
    ∃ v1 s1 v2 s2,
      BorrowContiguous (HandleState.live c) = some (v1, s1) ∧
      s1 = HandleState.live c ∧
      BorrowContiguous s1 = some (v2, s2) ∧
      v2 = v1 ∧ v2.length = v1.length := by
  exact ⟨c, HandleState.live c, c, HandleState.live c, rfl, rfl, rfl, rfl, rfl⟩

/-- Claim C6: the handle follows a two-state machine {Live, Destroyed}:
from a live handle `Destroy` succeeds exactly once and moves it to the
destroyed state, the non-destroying operations leave the handle live, and
in the destroyed state no operation (BorrowContiguous, TakeOwned, Destroy)
is legal — each is a precondition violation, returning no outcome. -/
theorem C6_handle_state_machine (c : List Nat) :
    Destroy (HandleState.live c) = some HandleState.destroyed ∧
    (BorrowContiguous (HandleState.live c)).map Prod.snd =
      some (HandleState.live c) ∧
    (TakeOwned (HandleState.live c)).map Prod.snd =
      some (HandleState.live c) ∧
    BorrowContiguous HandleState.destroyed = none ∧
    TakeOwned HandleState.destroyed = none ∧
    Destroy HandleState.destroyed = none := by
  exact ⟨rfl, rfl, rfl, rfl, rfl, rfl⟩

/-- Claim C7: destroying a live handle succeeds; afterwards every
previously obtained borrowed view is invalid, while every owned sequence
previously obtained via `TakeOwned` is unchanged by the destruction and
can still be released separately, exactly once: a first release succeeds
and a second release of the same sequence fails. -/
theorem C7_destroy_frame_effect (c seq : List Nat)
    (rest : List (List Nat × Bool)) :
    ∃ w2,
      destroyWorld
        { handle := HandleState.live c, ownedSeqs := (seq, false) :: rest } =
        some w2 ∧
      borrowedViewValid w2 = false ∧
      w2.ownedSeqs = (seq, false) :: rest ∧
      ∃ w3, releaseOwned w2 0 = some w3 ∧
        w3.ownedSeqs.get? 0 = some (seq, true) ∧
        releaseOwned w3 0 = none := by
  refine ⟨{ handle := HandleState.destroyed, ownedSeqs := (seq, false) :: rest },
    rfl, rfl, rfl,
    { handle := HandleState.destroyed, ownedSeqs := (seq, true) :: rest },
    ?_, rfl, ?_⟩ <;> simp [releaseOwned]

/-- Claim C8: the destruction operation for the `Utf16Wrap` handle takes
exactly one argument, the handle itself (a `Utf16Wrap` pointer), and
returns nothing (void). -/
theorem C8_destroy_signature :
    destroyBinding.paramTypes = [CSType.ptrUtf16Wrap] ∧
    destroyBinding.paramTypes.length = 1 ∧
    destroyBinding.returnType = CSType.voidTy := by
  exact ⟨rfl, rfl, rfl⟩

/-- Claim C9: the two header declarations of `diplomat_result_double_void`
(in the named C/C++ header and in the unnamed source file) are
structurally identical: the embedding of one equals the embedding of the
other, member for member. -/
theorem C9_header_declarations_identical :
    diplomat_result_double_void_decl_cpp = diplomat_result_double_void_decl_d := by
  rfl

/-- Claim C10: in the generated C# binding, `BorrowCont` and `Owned` have
identical type signatures — each takes a `Utf16Wrap` pointer and returns
an array of 16-bit unsigned units — so the ownership mode is carried only
by the operation name, which differs between the two. -/
theorem C10_borrow_owned_same_signature :
    borrowContBinding.paramTypes = ownedBinding.paramTypes ∧
    borrowContBinding.returnType = ownedBinding.returnType ∧
    borrowContBinding.paramTypes = [CSType.ptrUtf16Wrap] ∧
    borrowContBinding.returnType = CSType.ushortArray ∧
    borrowContBinding.methodName ≠ ownedBinding.methodName := by
  refine ⟨rfl, rfl, rfl, rfl, ?_⟩
  decide
